import Mathlib

/-!
Shallow embedding of `embassy-stm32/src/dma/gpdma.rs` (GPDMA driver core).

Machine registers are modelled as Lean structures with one field per register
bit-field the driver touches.  A write to a whole register (`reg.write` in the
source) replaces the structure by a fresh one (unwritten fields take the
hardware reset value `false`/`0`); `reg.modify` updates only the named fields.
The flag-clear register `FCR` is write-one-to-clear: setting a bit in `FCR`
clears the corresponding flag in the status register `SR`, so it is modelled
directly as clearing the `SR` field.

Functions that mutate registers are embedded in state-passing style
`... → Option String × ChannelRegs × ChannelState × List Event`:
the first component is `some msg` when the Rust code aborts with that message
(state components then hold the state as mutated up to the abort), and the
`Event` trace records, in program order, each register write, atomic
counter operation and memory fence executed before returning.
-/

/-- Word sizes supported by the DMA engine (from `dma/word.rs`). -/
inductive WordSize
  | OneByte
  | TwoBytes
  | FourBytes
  deriving DecidableEq, Repr

/-- `WordSize::bytes()`. -/
def WordSize.bytes : WordSize → Nat
  | .OneByte => 1
  | .TwoBytes => 2
  | .FourBytes => 4

/-- Transfer direction (`Dir` in `dma/mod.rs`). -/
inductive Dir
  | MemoryToPeripheral
  | PeripheralToMemory
  deriving DecidableEq, Repr

/-- `TransferPriority` — priority of a DMA transfer. -/
inductive TransferPriority
  | LowWithLowWeight
  | LowWithMidWeight
  | LowWithHighWeigt
  | High
  deriving DecidableEq, Repr

/-- Hardware priority field values (`pac::gpdma::vals::Prio`). -/
inductive Prio
  | LOW_WITH_LOW_WEIGHT
  | LOW_WITH_MID_WEIGHT
  | LOW_WITH_HIGH_WEIGHT
  | HIGH
  deriving DecidableEq, Repr

/-- `impl From<TransferPriority> for vals::Prio`. -/
def Prio.fromTransferPriority : TransferPriority → Prio
  | .LowWithLowWeight => .LOW_WITH_MID_WEIGHT
  | .LowWithMidWeight => .LOW_WITH_MID_WEIGHT
  | .LowWithHighWeigt => .LOW_WITH_HIGH_WEIGHT
  | .High => .HIGH

/-- `TriggerPolarity` of the transfer trigger. -/
inductive TriggerPolarity
  | None
  | RisingEdge
  | FallingEdge
  deriving DecidableEq, Repr

/-- Hardware trigger-polarity field values (`vals::Trigpol`). -/
inductive Trigpol
  | NONE
  | RISING_EDGE
  | FALLING_EDGE
  deriving DecidableEq, Repr

/-- `impl From<TriggerPolarity> for vals::Trigpol`. -/
def Trigpol.fromTriggerPolarity : TriggerPolarity → Trigpol
  | .None => .NONE
  | .RisingEdge => .RISING_EDGE
  | .FallingEdge => .FALLING_EDGE

/-- `TriggerMode` of the transfer. -/
inductive TriggerMode
  | Block
  | Block2D
  | LinkedListItem
  | Burst
  deriving DecidableEq, Repr

/-- Hardware trigger-mode field values (`vals::Trigm`). -/
inductive Trigm
  | BLOCK
  | BURST
  | LINKED_LIST_ITEM
  | TWO_D_BLOCK
  deriving DecidableEq, Repr

/-- `impl From<TriggerMode> for vals::Trigm`. -/
def Trigm.fromTriggerMode : TriggerMode → Trigm
  | .Block => .BLOCK
  | .Burst => .BURST
  | .LinkedListItem => .LINKED_LIST_ITEM
  | .Block2D => .TWO_D_BLOCK

/-- Hardware data-width field values (`vals::Dw`). -/
inductive Dw
  | BYTE
  | HALF_WORD
  | WORD
  deriving DecidableEq, Repr

/-- `impl From<WordSize> for vals::Dw`. -/
def Dw.fromWordSize : WordSize → Dw
  | .OneByte => .BYTE
  | .TwoBytes => .HALF_WORD
  | .FourBytes => .WORD

/-- Hardware port selector (`vals::Ap`). -/
inductive Ap
  | PORT0
  | PORT1
  deriving DecidableEq, Repr

/-- Hardware request-direction field (`vals::Dreq`). -/
inductive Dreq
  | SOURCE_PERIPHERAL
  | DESTINATION_PERIPHERAL
  deriving DecidableEq, Repr

/-- `TransferOptions` with the source's `Default` values. -/
structure TransferOptions where
  priority : TransferPriority := .LowWithLowWeight
  triggerSource : Nat := 0
  triggerMode : TriggerMode := .Block
  triggerPolarity : TriggerPolarity := .None
  srcBurstLen : Nat := 1
  dstBurstLen : Nat := 1
  deriving DecidableEq, Repr

/-- Channel control register `CR` (the fields the driver touches). -/
structure Cr where
  reset : Bool := false
  en : Bool := false
  susp : Bool := false
  tcie : Bool := false
  useie : Bool := false
  dteie : Bool := false
  suspie : Bool := false
  htie : Bool := false
  prio : Prio := .LOW_WITH_LOW_WEIGHT
  deriving DecidableEq, Repr

/-- Channel status register `SR` flags. -/
structure Sr where
  idlef : Bool := false
  suspf : Bool := false
  tcf : Bool := false
  htf : Bool := false
  dtef : Bool := false
  usef : Bool := false
  deriving DecidableEq, Repr

/-- Channel transfer register 1 `TR1` fields. -/
structure Tr1 where
  sdw : Dw := .BYTE
  ddw : Dw := .BYTE
  sinc : Bool := false
  dinc : Bool := false
  sbl1 : Nat := 0
  dbl1 : Nat := 0
  sap : Ap := .PORT0
  dap : Ap := .PORT0
  deriving DecidableEq, Repr

/-- Channel transfer register 2 `TR2` fields. -/
structure Tr2 where
  dreq : Dreq := .SOURCE_PERIPHERAL
  reqsel : Nat := 0
  trigm : Trigm := .BLOCK
  trigsel : Nat := 0
  trigpol : Trigpol := .NONE
  deriving DecidableEq, Repr

/-- All channel registers the driver reads or writes. -/
structure ChannelRegs where
  cr : Cr := {}
  sr : Sr := {}
  tr1 : Tr1 := {}
  tr2 : Tr2 := {}
  br1Bndt : Nat := 0
  sar : Nat := 0
  dar : Nat := 0
  llrUsa : Bool := false
  llrUda : Bool := false
  llrLa : Nat := 0
  lbarLba : Nat := 0
  deriving DecidableEq, Repr

/-- Per-channel driver state (`ChannelState`): the atomic completion counter,
the registered circular address, and whether the waker slot has been woken
(`wakerWoken` records that `waker.wake()` was called). -/
structure ChannelState where
  completeCount : Nat := 0
  circularAddress : Nat := 0
  wakerWoken : Bool := false
  deriving DecidableEq, Repr

/-- Observable side effects of the driver, in program order. -/
inductive Event
  | fenceSeqCst
  | resetCompleteCount
  | storeCircularAddress
  | writeCrReset
  | writeFcr
  | writeLlr
  | writeLbar
  | writeTr1
  | writeTr2
  | writeTr3
  | writeBr1
  | writeSar
  | writeDar
  | writeCrEnable
  deriving DecidableEq, Repr

/-- `AnyChannel::on_irq`: reads `SR` once, aborts on a data-transfer or
user-setting error, otherwise services the half-complete, complete and
suspend flags in that order. -/
def AnyChannel.on_irq (regs : ChannelRegs) (st : ChannelState) :
    Option String × ChannelRegs × ChannelState :=
  let sr := regs.sr
  if sr.dtef then
    (some "DMA: data transfer error", regs, st)
  else if sr.usef then
    (some "DMA: user settings error", regs, st)
  else
    let regs := if sr.htf then { regs with sr := { regs.sr with htf := false } } else regs
    let st := if sr.htf then { st with wakerWoken := true } else st
    let regs := if sr.tcf then { regs with sr := { regs.sr with tcf := false } } else regs
    let st :=
      if sr.tcf then { st with completeCount := st.completeCount + 1, wakerWoken := true } else st
    let regs :=
      if sr.suspf then
        { regs with
          sr := { regs.sr with suspf := false }
          cr := { regs.cr with tcie := false, useie := false, dteie := false, suspie := false, htie := false } }
      else regs
    let st := if sr.suspf then { st with wakerWoken := true } else st
    (none, regs, st)

/-- `Transfer::new_inner`: validate, fence, zero the completion counter, and
program the channel registers in source order, finishing with the `CR` write
that sets the interrupt enables and the enable bit. -/
def Transfer.new_inner (regs : ChannelRegs) (st : ChannelState) (request : Nat) (dir : Dir)
    (periAddr memAddr memLen : Nat) (incrMem : Bool) (dataSize dstSize : WordSize)
    (options : TransferOptions) :
    Option String × ChannelRegs × ChannelState × List Event :=
  if 65535 < memLen * dataSize.bytes then
    (some "DMA transfers may not be larger than 65535 bytes.", regs, st, [])
  else if options.srcBurstLen < 1 ∨ 63 < options.srcBurstLen ∨
          options.dstBurstLen < 1 ∨ 63 < options.dstBurstLen then
    (some "DMA transfer burst length must lie between 1 and 63.", regs, st, [])
  else
    let st1 : ChannelState := { st with completeCount := 0 }
    let r1 : ChannelRegs := { regs with cr := { reset := true } }
    let r2 : ChannelRegs := { r1 with sr := {} }
    let r3 : ChannelRegs := { r2 with llrUsa := false, llrUda := false, llrLa := 0 }
    let r4 : ChannelRegs :=
      { r3 with
        tr1 :=
          { sdw := Dw.fromWordSize dataSize
            ddw := Dw.fromWordSize dstSize
            sinc := dir == Dir.MemoryToPeripheral && incrMem
            dinc := dir == Dir.PeripheralToMemory && incrMem
            sbl1 := options.srcBurstLen - 1
            dbl1 := options.dstBurstLen - 1
            sap := match dir with
              | .MemoryToPeripheral => Ap.PORT1
              | .PeripheralToMemory => Ap.PORT0
            dap := match dir with
              | .MemoryToPeripheral => Ap.PORT0
              | .PeripheralToMemory => Ap.PORT1 } }
    let r5 : ChannelRegs :=
      { r4 with
        tr2 :=
          { dreq := match dir with
              | .MemoryToPeripheral => Dreq.DESTINATION_PERIPHERAL
              | .PeripheralToMemory => Dreq.SOURCE_PERIPHERAL
            reqsel := request
            trigm := Trigm.fromTriggerMode options.triggerMode
            trigsel := options.triggerSource
            trigpol := Trigpol.fromTriggerPolarity options.triggerPolarity } }
    let r6 : ChannelRegs := { r5 with br1Bndt := memLen * dataSize.bytes }
    let r7 : ChannelRegs :=
      match dir with
      | .MemoryToPeripheral => { r6 with sar := memAddr, dar := periAddr }
      | .PeripheralToMemory => { r6 with sar := periAddr, dar := memAddr }
    let r8 : ChannelRegs :=
      { r7 with
        cr :=
          { prio := Prio.fromTransferPriority options.priority
            tcie := true, useie := true, dteie := true, suspie := true
            en := true } }
    (none, r8, st1,
      [Event.fenceSeqCst, .resetCompleteCount, .writeCrReset, .writeFcr, .writeLlr,
       .writeTr1, .writeTr2, .writeTr3, .writeBr1, .writeSar, .writeDar, .writeCrEnable])

/-- `Transfer::request_stop`: `cr.modify(set_susp(true))`. -/
def Transfer.request_stop (regs : ChannelRegs) : ChannelRegs :=
  { regs with cr := { regs.cr with susp := true } }

/-- `Transfer::is_running`: not idle, completion counter still zero, and not
suspend-complete. -/
def Transfer.is_running (regs : ChannelRegs) (st : ChannelState) : Bool :=
  !regs.sr.idlef && st.completeCount == 0 && !regs.sr.suspf

/-- `RingBuffer::request_suspend` (used by `ReadableRingBuffer::request_stop`):
`cr.modify(set_susp(true))`. -/
def ReadableRingBuffer.request_stop (regs : ChannelRegs) : ChannelRegs :=
  { regs with cr := { regs.cr with susp := true } }

/-- `WritableRingBuffer::request_stop`: `cr.modify(set_en(false))`. -/
def WritableRingBuffer.request_stop (regs : ChannelRegs) : ChannelRegs :=
  { regs with cr := { regs.cr with en := false } }

/-- `RingBuffer::configure`: fence, reset the channel, clear all flags, then
check buffer alignment (aborting on failure), then program the linked-list,
transfer and address registers for circular mode.  `lliAddr` is the address
of the per-channel `circular_address` cell used as the one-entry linked list. -/
def RingBuffer.configure (regs : ChannelRegs) (st : ChannelState) (request : Nat) (dir : Dir)
    (periAddr memAddr memLen lliAddr : Nat) (dataSize : WordSize) :
    Option String × ChannelRegs × ChannelState × List Event :=
  let r1 : ChannelRegs := { regs with cr := { reset := true } }
  let r2 : ChannelRegs := { r1 with sr := {} }
  if memAddr % 4 ≠ 0 then
    (some "circular address must be 4-byte aligned", r2, st,
      [Event.fenceSeqCst, .writeCrReset, .writeFcr])
  else
    let st1 : ChannelState := { st with circularAddress := memAddr }
    let r3 : ChannelRegs :=
      { r2 with
        llrUsa := dir == Dir.MemoryToPeripheral
        llrUda := dir == Dir.PeripheralToMemory
        llrLa := (lliAddr / 4) % 16384 }
    let r4 : ChannelRegs := { r3 with lbarLba := (lliAddr / 65536) % 65536 }
    let r5 : ChannelRegs :=
      { r4 with
        tr1 :=
          { sdw := Dw.fromWordSize dataSize
            ddw := Dw.fromWordSize dataSize
            sinc := dir == Dir.MemoryToPeripheral
            dinc := dir == Dir.PeripheralToMemory } }
    let r6 : ChannelRegs :=
      { r5 with
        tr2 :=
          { dreq := match dir with
              | .MemoryToPeripheral => Dreq.DESTINATION_PERIPHERAL
              | .PeripheralToMemory => Dreq.SOURCE_PERIPHERAL
            reqsel := request } }
    let r7 : ChannelRegs := { r6 with br1Bndt := (memLen * dataSize.bytes) % 65536 }
    let r8 : ChannelRegs :=
      match dir with
      | .MemoryToPeripheral => { r7 with sar := memAddr, dar := periAddr }
      | .PeripheralToMemory => { r7 with sar := periAddr, dar := memAddr }
    (none, r8, st1,
      [Event.fenceSeqCst, .writeCrReset, .writeFcr, .storeCircularAddress, .writeLlr,
       .writeLbar, .writeTr1, .writeTr2, .writeBr1, .writeSar, .writeDar])

/-- Environment steps that can occur while `Drop for Transfer` busy-waits:
the hardware confirming suspension (sets `suspf`), the hardware finishing the
block transfer (sets `tcf` and `idlef` and clears the enable bit), or the
interrupt handler running. -/
inductive EnvStep
  | hwSuspendComplete
  | hwTransferComplete
  | runIrq
  deriving DecidableEq, Repr

/-- Effect of one environment step on the channel. -/
def EnvStep.apply : EnvStep → ChannelRegs × ChannelState → ChannelRegs × ChannelState
  | .hwSuspendComplete, (r, s) => ({ r with sr := { r.sr with suspf := true } }, s)
  | .hwTransferComplete, (r, s) =>
      ({ r with sr := { r.sr with tcf := true, idlef := true },
                cr := { r.cr with en := false } }, s)
  | .runIrq, (r, s) =>
      let o := AnyChannel.on_irq r s
      (o.2.1, o.2.2)

/-- The busy-wait loop `while self.is_running() {}` of `Drop for Transfer`,
interleaved with environment steps; returns the channel state at loop exit,
or `none` when the supplied environment steps never end the transfer. -/
def Transfer.dropLoop : List EnvStep → ChannelRegs × ChannelState →
    Option (ChannelRegs × ChannelState)
  | steps, rs =>
    if Transfer.is_running rs.1 rs.2 then
      match steps with
      | [] => none
      | e :: rest => Transfer.dropLoop rest (e.apply rs)
    else some rs

/-- `Drop for Transfer`: `request_stop`, busy-wait until `is_running` is
false, then a SeqCst fence (which does not change the modelled state). -/
def Transfer.drop (steps : List EnvStep) (regs : ChannelRegs) (st : ChannelState) :
    Option (ChannelRegs × ChannelState) :=
  Transfer.dropLoop steps (Transfer.request_stop regs, st)

/-- Register state of a channel with an in-flight single transfer: enabled,
all single-transfer interrupt enables set, no flags pending. -/
def activeRegs : ChannelRegs :=
  { cr := { en := true, tcie := true, useie := true, dteie := true, suspie := true } }

/-! ## Helper lemmas -/

/-- The interrupt handler never touches the suspend-request bit of `CR`. -/
theorem AnyChannel.on_irq_cr_susp (regs : ChannelRegs) (st : ChannelState) :
    (AnyChannel.on_irq regs st).2.1.cr.susp = regs.cr.susp := by
  by_cases h1 : regs.sr.dtef <;> by_cases h2 : regs.sr.usef <;>
    by_cases h3 : regs.sr.htf <;> by_cases h4 : regs.sr.tcf <;> by_cases h5 : regs.sr.suspf <;>
    simp [AnyChannel.on_irq, h1, h2, h3, h4, h5]

/-- No environment step clears the suspend-request bit. -/
theorem EnvStep.apply_cr_susp (e : EnvStep) (rs : ChannelRegs × ChannelState) :
    (e.apply rs).1.cr.susp = rs.1.cr.susp := by
  cases e
  · rfl
  · rfl
  · exact AnyChannel.on_irq_cr_susp rs.1 rs.2

/-- If the destructor's busy-wait loop terminates and the suspend bit was set
on entry, it is still set at exit and the transfer reads as not running. -/
theorem Transfer.dropLoop_invariant (steps : List EnvStep) :
    ∀ rs out : ChannelRegs × ChannelState, rs.1.cr.susp = true →
      Transfer.dropLoop steps rs = some out →
      out.1.cr.susp = true ∧ Transfer.is_running out.1 out.2 = false := by
  induction steps with
  | nil =>
    intro rs out hs h
    rw [Transfer.dropLoop] at h
    by_cases hr : Transfer.is_running rs.1 rs.2 = true
    · rw [if_pos hr] at h
      exact absurd h (by simp)
    · rw [if_neg hr] at h
      injection h with h
      subst h
      exact ⟨hs, Bool.eq_false_iff.mpr hr⟩
  | cons e rest ih =>
    intro rs out hs h
    rw [Transfer.dropLoop] at h
    by_cases hr : Transfer.is_running rs.1 rs.2 = true
    · rw [if_pos hr] at h
      exact ih (e.apply rs) out (by rw [EnvStep.apply_cr_susp]; exact hs) h
    · rw [if_neg hr] at h
      injection h with h
      subst h
      exact ⟨hs, Bool.eq_false_iff.mpr hr⟩

/-! ## Claim theorems -/

/-- Claim C9: the conversion from `TransferPriority` to the hardware priority
field maps both `LowWithLowWeight` and `LowWithMidWeight` to
`LOW_WITH_MID_WEIGHT`, so both request values program identical hardware
priority. -/
theorem Prio.fromTransferPriority_low_weights_collapse :
    Prio.fromTransferPriority TransferPriority.LowWithLowWeight = Prio.LOW_WITH_MID_WEIGHT ∧
    Prio.fromTransferPriority TransferPriority.LowWithMidWeight = Prio.LOW_WITH_MID_WEIGHT ∧
    Prio.fromTransferPriority TransferPriority.LowWithLowWeight =
      Prio.fromTransferPriority TransferPriority.LowWithMidWeight := by
  decide

/-- Claim C4, counterexample: `Transfer::is_running` is NOT false exactly when
the hardware reports transfer-complete or suspend-complete — with only the
idle flag set (no transfer-complete in the status register, completion counter
zero, no suspend-complete), `is_running` already returns false. -/
theorem Transfer.is_running_counterexample :
    ¬ (∀ (regs : ChannelRegs) (st : ChannelState),
        Transfer.is_running regs st = false ↔
          (regs.sr.tcf = true ∨ st.completeCount ≠ 0 ∨ regs.sr.suspf = true)) := by
  intro h
  exact absurd ((h { sr := { idlef := true } } {}).mp (by decide)) (by decide)

/-- Claim C4, amended: `Transfer::is_running` returns false exactly when the
status register's idle flag or suspend-complete flag is set, or the atomic
completion counter (incremented by the interrupt handler on transfer-complete)
is nonzero; it is a single register/counter read and never blocks. -/
theorem Transfer.is_running_false_iff (regs : ChannelRegs) (st : ChannelState) :
    Transfer.is_running regs st = false ↔
      (regs.sr.idlef = true ∨ st.completeCount ≠ 0 ∨ regs.sr.suspf = true) := by
  cases h1 : regs.sr.idlef <;> cases h2 : regs.sr.suspf <;>
    simp [Transfer.is_running, h1, h2]

/-- Witness for C4's amended theorem at a concrete state. -/
theorem Transfer.is_running_false_iff_witness :
    Transfer.is_running { sr := { idlef := true } } {} = false :=
  (Transfer.is_running_false_iff { sr := { idlef := true } } {}).mpr (Or.inl rfl)

/-- Claim C5, counterexample: `WritableRingBuffer::request_stop` does NOT set
the channel's suspend bit — on an enabled channel with the suspend bit clear,
it leaves the suspend bit clear (it clears the enable bit instead). -/
theorem WritableRingBuffer.request_stop_counterexample :
    ¬ (∀ regs : ChannelRegs,
        (WritableRingBuffer.request_stop regs).cr.susp = true) := by
  intro h
  exact absurd (h activeRegs) (by decide)

/-- Claim C5, amended: `Transfer::request_stop` and
`ReadableRingBuffer::request_stop` set the suspend bit (leaving the enable bit
unchanged) and are idempotent; `WritableRingBuffer::request_stop` instead
clears the enable bit (leaving the suspend bit unchanged) and is likewise
idempotent.  All three are plain register writes: they never wait and never
fail. -/
theorem request_stop_characterization (regs : ChannelRegs) :
    (Transfer.request_stop regs).cr.susp = true ∧
    (Transfer.request_stop regs).cr.en = regs.cr.en ∧
    Transfer.request_stop (Transfer.request_stop regs) = Transfer.request_stop regs ∧
    (ReadableRingBuffer.request_stop regs).cr.susp = true ∧
    (ReadableRingBuffer.request_stop regs).cr.en = regs.cr.en ∧
    ReadableRingBuffer.request_stop (ReadableRingBuffer.request_stop regs) =
      ReadableRingBuffer.request_stop regs ∧
    (WritableRingBuffer.request_stop regs).cr.en = false ∧
    (WritableRingBuffer.request_stop regs).cr.susp = regs.cr.susp ∧
    WritableRingBuffer.request_stop (WritableRingBuffer.request_stop regs) =
      WritableRingBuffer.request_stop regs := by
  refine ⟨rfl, rfl, ?_, rfl, rfl, ?_, rfl, rfl, ?_⟩ <;> rfl

/-- Witness for C5's amended theorem at a concrete register state. -/
theorem request_stop_characterization_witness :
    (Transfer.request_stop activeRegs).cr.susp = true ∧
    (WritableRingBuffer.request_stop activeRegs).cr.en = false :=
  ⟨(request_stop_characterization activeRegs).1,
   (request_stop_characterization activeRegs).2.2.2.2.2.2.1⟩

/-- Claim C7: when the status value read at the start of the interrupt handler
has the data-transfer-error or user-setting-error bit set, `on_irq` aborts and
leaves the registers and the channel state exactly as they were: no flag is
cleared and the waker is not woken. -/
theorem AnyChannel.on_irq_error_aborts (regs : ChannelRegs) (st : ChannelState)
    (h : regs.sr.dtef = true ∨ regs.sr.usef = true) :
    (AnyChannel.on_irq regs st).1.isSome = true ∧
    (AnyChannel.on_irq regs st).2.1 = regs ∧
    (AnyChannel.on_irq regs st).2.2 = st := by
  rcases h with h | h
  · simp [AnyChannel.on_irq, h]
  · by_cases hd : regs.sr.dtef <;> simp [AnyChannel.on_irq, h, hd]

/-- Witness for C7's theorem at a concrete erroring status value. -/
theorem AnyChannel.on_irq_error_aborts_witness :
    (AnyChannel.on_irq { activeRegs with sr := { dtef := true } } {}).1.isSome = true ∧
    (AnyChannel.on_irq { activeRegs with sr := { dtef := true } } {}).2.1 =
      { activeRegs with sr := { dtef := true } } ∧
    (AnyChannel.on_irq { activeRegs with sr := { dtef := true } } {}).2.2 = {} :=
  AnyChannel.on_irq_error_aborts { activeRegs with sr := { dtef := true } } {} (Or.inl rfl)

/-- Claim C2, counterexample: the interrupt handler does NOT disable the
channel interrupt-enable bits whenever the complete-or-suspend flag is set —
with only the transfer-complete flag set, `on_irq` wakes but leaves `tcie`
(and the other interrupt enables) set; the enables are only disabled in the
suspend-complete branch. -/
theorem AnyChannel.on_irq_complete_counterexample :
    ¬ (∀ (regs : ChannelRegs) (st : ChannelState),
        regs.sr.tcf = true ∨ regs.sr.suspf = true →
          (AnyChannel.on_irq regs st).2.1.cr.tcie = false ∧
          (AnyChannel.on_irq regs st).2.1.cr.useie = false ∧
          (AnyChannel.on_irq regs st).2.1.cr.dteie = false ∧
          (AnyChannel.on_irq regs st).2.1.cr.suspie = false ∧
          (AnyChannel.on_irq regs st).2.1.cr.htie = false ∧
          (AnyChannel.on_irq regs st).2.2.wakerWoken = true) := by
  intro h
  exact absurd (h { activeRegs with sr := { tcf := true } } {} (Or.inl rfl)).1 (by decide)

/-- Claim C2, amended: on a status value without error bits the handler
behaves identically for every channel (it does not distinguish single
transfers from ring buffers): half-complete clears only that flag and wakes;
full-complete clears the flag, increments the completion counter and wakes;
suspend-complete clears the flag, disables all interrupt-enable bits and
wakes; and on full-complete without suspend-complete the control register —
interrupt enables included — is left untouched. -/
theorem AnyChannel.on_irq_event_handling (regs : ChannelRegs) (st : ChannelState)
    (hd : regs.sr.dtef = false) (hu : regs.sr.usef = false) :
    (AnyChannel.on_irq regs st).1 = none ∧
    (regs.sr.htf = true →
      (AnyChannel.on_irq regs st).2.1.sr.htf = false ∧
      (AnyChannel.on_irq regs st).2.2.wakerWoken = true) ∧
    (regs.sr.tcf = true →
      (AnyChannel.on_irq regs st).2.1.sr.tcf = false ∧
      (AnyChannel.on_irq regs st).2.2.completeCount = st.completeCount + 1 ∧
      (AnyChannel.on_irq regs st).2.2.wakerWoken = true) ∧
    (regs.sr.suspf = true →
      (AnyChannel.on_irq regs st).2.1.sr.suspf = false ∧
      (AnyChannel.on_irq regs st).2.1.cr.tcie = false ∧
      (AnyChannel.on_irq regs st).2.1.cr.useie = false ∧
      (AnyChannel.on_irq regs st).2.1.cr.dteie = false ∧
      (AnyChannel.on_irq regs st).2.1.cr.suspie = false ∧
      (AnyChannel.on_irq regs st).2.1.cr.htie = false ∧
      (AnyChannel.on_irq regs st).2.2.wakerWoken = true) ∧
    (regs.sr.tcf = true → regs.sr.suspf = false →
      (AnyChannel.on_irq regs st).2.1.cr = regs.cr) := by
  by_cases h3 : regs.sr.htf <;> by_cases h4 : regs.sr.tcf <;> by_cases h5 : regs.sr.suspf <;>
    simp [AnyChannel.on_irq, hd, hu, h3, h4, h5]

/-- Witness for C2's amended theorem: a status value with all three service
flags set. -/
theorem AnyChannel.on_irq_event_handling_witness :
    (AnyChannel.on_irq { activeRegs with sr := { htf := true, tcf := true, suspf := true } } {}).2.2.completeCount = 1 ∧
    (AnyChannel.on_irq { activeRegs with sr := { htf := true, tcf := true, suspf := true } } {}).2.1.cr.tcie = false := by
  have h := AnyChannel.on_irq_event_handling
    { activeRegs with sr := { htf := true, tcf := true, suspf := true } } {} rfl rfl
  exact ⟨(h.2.2.1 rfl).2.1, (h.2.2.2.1 rfl).2.1⟩

/-- Claim C1, counterexample: dropping an active Single Transfer does request
stop and busy-wait until `is_running` is false, but it does NOT leave the
enable bit cleared — when the hardware answers the suspend request by setting
the suspend-complete flag (the normal cancellation path, which does not clear
the enable bit), the destructor returns with the enable bit still set. -/
theorem Transfer.drop_counterexample :
    (Transfer.drop [EnvStep.hwSuspendComplete] activeRegs {}).map
        (fun out => (out.1.cr.en, out.1.cr.susp, Transfer.is_running out.1 out.2)) =
      some (true, true, false) := by
  decide

/-- Claim C1, amended: whenever the destructor's busy-wait terminates (under
any interleaving of hardware suspend-confirmation, hardware completion and
interrupt-handler steps), the destructor has requested stop — the suspend bit
is set in the final control register — and `is_running` is false at return,
after which the closing SeqCst fence runs; but the enable bit is not cleared
by the destructor itself (it retains whatever value the hardware left). -/
theorem Transfer.drop_requests_stop_and_waits (steps : List EnvStep)
    (regs : ChannelRegs) (st : ChannelState) (out : ChannelRegs × ChannelState)
    (h : Transfer.drop steps regs st = some out) :
    out.1.cr.susp = true ∧ Transfer.is_running out.1 out.2 = false :=
  Transfer.dropLoop_invariant steps (Transfer.request_stop regs, st) out rfl h

/-- Witness for C1's amended theorem on the concrete suspend path. -/
theorem Transfer.drop_requests_stop_and_waits_witness :
    ({ activeRegs with cr := { activeRegs.cr with susp := true }, sr := { suspf := true } } : ChannelRegs).cr.susp = true ∧
    Transfer.is_running { activeRegs with cr := { activeRegs.cr with susp := true }, sr := { suspf := true } } {} = false :=
  Transfer.drop_requests_stop_and_waits [EnvStep.hwSuspendComplete] activeRegs {}
    ({ activeRegs with cr := { activeRegs.cr with susp := true }, sr := { suspf := true } }, {})
    (by decide)

/-- Claim C3: `Transfer::new_inner` aborts if and only if the byte count
`memLen * word_size` exceeds 65535 or a burst length lies outside `1..=63`,
and on abort no channel register has been written and the channel state is
untouched (the event trace is empty: the validation precedes the fence, the
counter reset and every register write). -/
theorem Transfer.new_inner_rejects_invalid_config (regs : ChannelRegs) (st : ChannelState)
    (request : Nat) (dir : Dir) (periAddr memAddr memLen : Nat) (incrMem : Bool)
    (dataSize dstSize : WordSize) (options : TransferOptions) :
    ((Transfer.new_inner regs st request dir periAddr memAddr memLen incrMem dataSize dstSize options).1.isSome = true ↔
      (65535 < memLen * dataSize.bytes ∨ options.srcBurstLen < 1 ∨ 63 < options.srcBurstLen ∨
        options.dstBurstLen < 1 ∨ 63 < options.dstBurstLen)) ∧
    ((Transfer.new_inner regs st request dir periAddr memAddr memLen incrMem dataSize dstSize options).1.isSome = true →
      (Transfer.new_inner regs st request dir periAddr memAddr memLen incrMem dataSize dstSize options).2.1 = regs ∧
      (Transfer.new_inner regs st request dir periAddr memAddr memLen incrMem dataSize dstSize options).2.2.1 = st ∧
      (Transfer.new_inner regs st request dir periAddr memAddr memLen incrMem dataSize dstSize options).2.2.2 = []) := by
  by_cases h1 : 65535 < memLen * dataSize.bytes
  · simp [Transfer.new_inner, h1]
  · by_cases h2 : options.srcBurstLen < 1 ∨ 63 < options.srcBurstLen ∨
        options.dstBurstLen < 1 ∨ 63 < options.dstBurstLen
    · rcases h2 with h2 | h2 | h2 | h2 <;> simp [Transfer.new_inner, h1, h2]
    · push_neg at h2
      simp [Transfer.new_inner, h1, Nat.not_lt.mpr h2.1, Nat.not_lt.mpr h2.2.1,
        Nat.not_lt.mpr h2.2.2.1, Nat.not_lt.mpr h2.2.2.2]

/-- Witness for C3's theorem: a 40000-element transfer of two-byte words
(80000 bytes) is rejected with an empty event trace. -/
theorem Transfer.new_inner_rejects_invalid_config_witness :
    (Transfer.new_inner {} {} 0 Dir.MemoryToPeripheral 0 0 40000 true WordSize.TwoBytes WordSize.TwoBytes {}).1.isSome = true ∧
    (Transfer.new_inner {} {} 0 Dir.MemoryToPeripheral 0 0 40000 true WordSize.TwoBytes WordSize.TwoBytes {}).2.2.2 = [] := by
  have h := Transfer.new_inner_rejects_invalid_config {} {} 0 Dir.MemoryToPeripheral 0 0 40000
    true WordSize.TwoBytes WordSize.TwoBytes {}
  have h1 := h.1.mpr (Or.inl (by decide))
  exact ⟨h1, (h.2 h1).2.2⟩

/-- Claim C6: for valid burst lengths in `1..=63` (word sizes are `1`, `2` or
`4` bytes by construction of `WordSize`) and a byte count within 65535,
`Transfer::new_inner` succeeds, programs the byte-count register `BR1.BNDT`
to `memLen * word_size`, and programs the burst-length fields to the
requested burst lengths minus one. -/
theorem Transfer.new_inner_programs_bndt_and_burst (regs : ChannelRegs) (st : ChannelState)
    (request : Nat) (dir : Dir) (periAddr memAddr memLen : Nat) (incrMem : Bool)
    (dataSize dstSize : WordSize) (options : TransferOptions)
    (hlen : memLen * dataSize.bytes ≤ 65535)
    (hs1 : 1 ≤ options.srcBurstLen) (hs2 : options.srcBurstLen ≤ 63)
    (hd1 : 1 ≤ options.dstBurstLen) (hd2 : options.dstBurstLen ≤ 63) :
    (Transfer.new_inner regs st request dir periAddr memAddr memLen incrMem dataSize dstSize options).1 = none ∧
    (Transfer.new_inner regs st request dir periAddr memAddr memLen incrMem dataSize dstSize options).2.1.br1Bndt =
      memLen * dataSize.bytes ∧
    (Transfer.new_inner regs st request dir periAddr memAddr memLen incrMem dataSize dstSize options).2.1.tr1.sbl1 =
      options.srcBurstLen - 1 ∧
    (Transfer.new_inner regs st request dir periAddr memAddr memLen incrMem dataSize dstSize options).2.1.tr1.dbl1 =
      options.dstBurstLen - 1 := by
  have h1 : ¬ (65535 < memLen * dataSize.bytes) := Nat.not_lt.mpr hlen
  have h2 : ¬ (options.srcBurstLen < 1 ∨ 63 < options.srcBurstLen ∨
      options.dstBurstLen < 1 ∨ 63 < options.dstBurstLen) := by omega
  unfold Transfer.new_inner
  rw [if_neg h1, if_neg h2]
  cases dir <;> simp

/-- Witness for C6's theorem: 10 two-byte elements with burst lengths 4 and 8
program a byte count of 20 and burst fields 3 and 7. -/
theorem Transfer.new_inner_programs_bndt_and_burst_witness :
    (Transfer.new_inner {} {} 0 Dir.PeripheralToMemory 0 0 10 true WordSize.TwoBytes WordSize.TwoBytes { srcBurstLen := 4, dstBurstLen := 8 }).1 = none ∧
    (Transfer.new_inner {} {} 0 Dir.PeripheralToMemory 0 0 10 true WordSize.TwoBytes WordSize.TwoBytes { srcBurstLen := 4, dstBurstLen := 8 }).2.1.br1Bndt = 20 ∧
    (Transfer.new_inner {} {} 0 Dir.PeripheralToMemory 0 0 10 true WordSize.TwoBytes WordSize.TwoBytes { srcBurstLen := 4, dstBurstLen := 8 }).2.1.tr1.sbl1 = 3 ∧
    (Transfer.new_inner {} {} 0 Dir.PeripheralToMemory 0 0 10 true WordSize.TwoBytes WordSize.TwoBytes { srcBurstLen := 4, dstBurstLen := 8 }).2.1.tr1.dbl1 = 7 :=
  Transfer.new_inner_programs_bndt_and_burst {} {} 0 Dir.PeripheralToMemory 0 0 10 true
    WordSize.TwoBytes WordSize.TwoBytes { srcBurstLen := 4, dstBurstLen := 8 }
    (by decide) (by decide) (by decide) (by decide) (by decide)

/-- Claim C8: `RingBuffer::configure` aborts exactly when the backing buffer's
base address is not 4-byte aligned, and the abort happens after the channel
reset write and the flag-clear write have already been issued: at the abort
the control register holds the reset write, the status flags are cleared, and
the event trace records the fence and both writes. -/
theorem RingBuffer.configure_alignment (regs : ChannelRegs) (st : ChannelState)
    (request : Nat) (dir : Dir) (periAddr memAddr memLen lliAddr : Nat)
    (dataSize : WordSize) :
    ((RingBuffer.configure regs st request dir periAddr memAddr memLen lliAddr dataSize).1.isSome = true ↔
      memAddr % 4 ≠ 0) ∧
    (memAddr % 4 ≠ 0 →
      (RingBuffer.configure regs st request dir periAddr memAddr memLen lliAddr dataSize).2.1 =
        { regs with cr := { reset := true }, sr := {} } ∧
      (RingBuffer.configure regs st request dir periAddr memAddr memLen lliAddr dataSize).2.2.2 =
        [Event.fenceSeqCst, Event.writeCrReset, Event.writeFcr]) := by
  by_cases h : memAddr % 4 ≠ 0
  · simp [RingBuffer.configure, h]
  · simp [RingBuffer.configure, h]

/-- Witness for C8's theorem: an unaligned base address 202 aborts with the
reset and flag-clear writes already recorded. -/
theorem RingBuffer.configure_alignment_witness :
    (RingBuffer.configure {} {} 0 Dir.PeripheralToMemory 0 202 8 4096 WordSize.TwoBytes).1.isSome = true ∧
    (RingBuffer.configure {} {} 0 Dir.PeripheralToMemory 0 202 8 4096 WordSize.TwoBytes).2.2.2 =
      [Event.fenceSeqCst, Event.writeCrReset, Event.writeFcr] := by
  have h := RingBuffer.configure_alignment {} {} 0 Dir.PeripheralToMemory 0 202 8 4096
    WordSize.TwoBytes
  exact ⟨h.1.mpr (by decide), (h.2 (by decide)).2⟩

/-- Claim C10: a successful `Transfer::new_inner` leaves the completion
counter at zero whatever its previous value, and in the event trace the
counter reset precedes the control-register write that sets the enable bit,
so a freshly constructed transfer cannot observe a completion count left over
from a previous transfer on the same channel. -/
theorem Transfer.new_inner_resets_count_before_enable (regs : ChannelRegs) (st : ChannelState)
    (request : Nat) (dir : Dir) (periAddr memAddr memLen : Nat) (incrMem : Bool)
    (dataSize dstSize : WordSize) (options : TransferOptions)
    (hlen : memLen * dataSize.bytes ≤ 65535)
    (hs1 : 1 ≤ options.srcBurstLen) (hs2 : options.srcBurstLen ≤ 63)
    (hd1 : 1 ≤ options.dstBurstLen) (hd2 : options.dstBurstLen ≤ 63) :
    (Transfer.new_inner regs st request dir periAddr memAddr memLen incrMem dataSize dstSize options).2.2.1.completeCount = 0 ∧
    Event.resetCompleteCount ∈ (Transfer.new_inner regs st request dir periAddr memAddr memLen incrMem dataSize dstSize options).2.2.2 ∧
    Event.writeCrEnable ∈ (Transfer.new_inner regs st request dir periAddr memAddr memLen incrMem dataSize dstSize options).2.2.2 ∧
    List.indexOf Event.resetCompleteCount
        (Transfer.new_inner regs st request dir periAddr memAddr memLen incrMem dataSize dstSize options).2.2.2 <
      List.indexOf Event.writeCrEnable
        (Transfer.new_inner regs st request dir periAddr memAddr memLen incrMem dataSize dstSize options).2.2.2 := by
  have h1 : ¬ (65535 < memLen * dataSize.bytes) := Nat.not_lt.mpr hlen
  have h2 : ¬ (options.srcBurstLen < 1 ∨ 63 < options.srcBurstLen ∨
      options.dstBurstLen < 1 ∨ 63 < options.dstBurstLen) := by omega
  have ht : (Transfer.new_inner regs st request dir periAddr memAddr memLen incrMem dataSize dstSize options).2.2.2 =
      [Event.fenceSeqCst, .resetCompleteCount, .writeCrReset, .writeFcr, .writeLlr,
       .writeTr1, .writeTr2, .writeTr3, .writeBr1, .writeSar, .writeDar, .writeCrEnable] := by
    unfold Transfer.new_inner
    rw [if_neg h1, if_neg h2]
  have hc : (Transfer.new_inner regs st request dir periAddr memAddr memLen incrMem dataSize dstSize options).2.2.1.completeCount = 0 := by
    unfold Transfer.new_inner
    rw [if_neg h1, if_neg h2]
  rw [ht]
  exact ⟨hc, by decide, by decide, by decide⟩

/-- Witness for C10's theorem: a counter left at 7 by a previous transfer is
zeroed before the enable write. -/
theorem Transfer.new_inner_resets_count_before_enable_witness :
    (Transfer.new_inner {} { completeCount := 7 } 0 Dir.MemoryToPeripheral 0 0 10 true WordSize.TwoBytes WordSize.TwoBytes {}).2.2.1.completeCount = 0 ∧
    Event.resetCompleteCount ∈ (Transfer.new_inner {} { completeCount := 7 } 0 Dir.MemoryToPeripheral 0 0 10 true WordSize.TwoBytes WordSize.TwoBytes {}).2.2.2 ∧
    Event.writeCrEnable ∈ (Transfer.new_inner {} { completeCount := 7 } 0 Dir.MemoryToPeripheral 0 0 10 true WordSize.TwoBytes WordSize.TwoBytes {}).2.2.2 ∧
    List.indexOf Event.resetCompleteCount
        (Transfer.new_inner {} { completeCount := 7 } 0 Dir.MemoryToPeripheral 0 0 10 true WordSize.TwoBytes WordSize.TwoBytes {}).2.2.2 <
      List.indexOf Event.writeCrEnable
        (Transfer.new_inner {} { completeCount := 7 } 0 Dir.MemoryToPeripheral 0 0 10 true WordSize.TwoBytes WordSize.TwoBytes {}).2.2.2 :=
  Transfer.new_inner_resets_count_before_enable {} { completeCount := 7 } 0
    Dir.MemoryToPeripheral 0 0 10 true WordSize.TwoBytes WordSize.TwoBytes {}
    (by decide) (by decide) (by decide) (by decide) (by decide)
